import Mathlib

/-!
Shallow embedding of the connection-and-synchronization engine of the
e2ee-msg-app repository: the local SQLite message store
(`DatabaseService`), the socket service (`WebSocketServiceClass` in
`src/services/network/WebSocketService.js`), the ChatContext send and
receive handlers (`src/context/ChatContext.js`), and the chat-screen send
and receive handlers (`src/screens/BiometricAuthScreen.js`).

Conventions of the embedding:
- JavaScript objects become structures; the in-memory `Set` objects
  (`processedMessages`, `joinedChats`, `processedMessageIds`) become
  insertion-ordered duplicate-free lists, because the code relies on
  `Array.from(set).slice(...)` insertion order for eviction.
- `Date.now()` and `Math.random()` results are passed in as explicit
  parameters (`now`, `rand`, `genId`).
- The crypto gateway is an oracle `String -> Option String`; `none`
  models a thrown decryption/encryption error.
- Asynchronous socket callbacks become a `step` function over an event
  type; outbound effects that matter to the claims (persisting,
  transmitting, enqueueing, emitting a join request) are returned as
  explicit action traces.
-/

namespace E2EE

/-- Inbound/outbound wire message, the argument object of
`sendMessage` / `handleIncomingMessage` / `new_message` events.
`messageId` is `none` when the field is absent. -/
structure MessageData where
  messageId : Option String
  chatId : Nat
  senderId : Nat
  senderUsername : String
  encryptedContent : String
  messageType : String
  timestamp : Nat
deriving DecidableEq, Repr

/-- Row of the `messages` table.  The schema is
`id INTEGER PRIMARY KEY AUTOINCREMENT, chat_id, sender_id,
encrypted_content, message_type, timestamp, created_at` with no UNIQUE
constraint on any other column. -/
structure MessageRow where
  id : Nat
  chat_id : Nat
  sender_id : Nat
  encrypted_content : String
  message_type : String
  timestamp : Nat
  created_at : Nat
deriving DecidableEq, Repr

/-- The local store: the `messages` table plus the autoincrement
counter (SQLite rowids start at 1, so a fresh store has `nextId = 1`). -/
structure Database where
  messages : List MessageRow
  nextId : Nat
deriving DecidableEq, Repr

/-- Fresh local store. -/
def Database.init : Database := { messages := [], nextId := 1 }

namespace DatabaseService

/-- DatabaseServiceClass.saveMessage: an unconditional
`INSERT INTO messages (chat_id, sender_id, encrypted_content,
message_type, timestamp, created_at) VALUES (?,?,?,?,?,?)`, returning
`result.lastInsertRowId`.  There is no duplicate check of any kind. -/
def saveMessage (db : Database) (chatId senderId : Nat)
    (encryptedContent messageType : String) (timestamp now : Nat) :
    Database × Nat :=
  let row : MessageRow :=
    { id := db.nextId, chat_id := chatId, sender_id := senderId,
      encrypted_content := encryptedContent, message_type := messageType,
      timestamp := timestamp, created_at := now }
  ({ messages := db.messages ++ [row], nextId := db.nextId + 1 }, db.nextId)

end DatabaseService

/-- JavaScript `a || b` for an optional string field: the fallback is
used when the field is absent or the empty string (both falsy). -/
def jsOr (o : Option String) (fallback : String) : String :=
  match o with
  | none => fallback
  | some s => if s = "" then fallback else s

/-- JavaScript `a || b` where `a` is a numeric row id (falsy only at 0). -/
def jsNumOr (n : Nat) (fallback : String) : String :=
  if n = 0 then fallback else toString n

/-- Fallback de-duplication key built in both receive paths when the
event has no `messageId`: the template string `timestamp_senderId`. -/
def fallbackKey (timestamp senderId : Nat) : String :=
  toString timestamp ++ "_" ++ toString senderId

/-- De-duplication key of an inbound event:
`data.messageId OR-ELSE timestamp_senderId`. -/
def dedupKey (md : MessageData) : String :=
  jsOr md.messageId (fallbackKey md.timestamp md.senderId)

/-- Insertion-ordered set add (JavaScript `Set.prototype.add`). -/
def setAdd (l : List String) (x : String) : List String :=
  if l.contains x then l else l ++ [x]

/-- UI-facing message object (entries of the React message list). -/
structure UIMessage where
  id : String
  chat_id : Nat
  sender_id : Nat
  sender_username : String
  content : String
  timestamp : Nat
  isMine : Bool
  pending : Bool
deriving DecidableEq, Repr

namespace ChatContext

/-- ChatContext.handleIncomingMessage: decrypts, appends the message to
the UI list (ADD_MESSAGE) and saves it to the local store.  There is no
check against the current user id: `isMine` is computed but the message
is appended and persisted either way.  A decryption error is caught by
the surrounding try/catch before either effect, so nothing happens. -/
def handleIncomingMessage (decrypt : String → Option String)
    (selfId : Nat) (now : Nat) (ui : List UIMessage) (db : Database)
    (md : MessageData) : List UIMessage × Database :=
  match decrypt md.encryptedContent with
  | none => (ui, db)
  | some content =>
      let newMessage : UIMessage :=
        { id := jsOr md.messageId "undefined", chat_id := md.chatId,
          sender_id := md.senderId, sender_username := md.senderUsername,
          content := content, timestamp := md.timestamp,
          isMine := md.senderId == selfId, pending := false }
      let db1 := (DatabaseService.saveMessage db md.chatId md.senderId
        md.encryptedContent "text" md.timestamp now).1
      (ui ++ [newMessage], db1)

end ChatContext

/-- Per-screen state of the chat screen: the chat it displays, the
screen-level `processedMessageIds` set and the rendered message list. -/
structure ScreenState where
  chatId : Nat
  processedMessageIds : List String
  messages : List UIMessage
deriving DecidableEq, Repr

namespace BiometricAuthScreen

/-- BiometricAuthScreen.handleNewMessage: ignores events for other
chats, drops already-processed ids, drops the current user's own echoed
messages, then decrypts (falling back to the raw `encryptedContent` on
failure), appends to the UI list unless an entry with the same id
exists, and saves to the local store. -/
def handleNewMessage (decrypt : String → Option String)
    (selfId : Nat) (now : Nat) (st : ScreenState) (db : Database)
    (md : MessageData) : ScreenState × Database :=
  if md.chatId ≠ st.chatId then (st, db)
  else
    let messageId := dedupKey md
    if st.processedMessageIds.contains messageId then (st, db)
    else if md.senderId == selfId then (st, db)
    else
      let processed := setAdd st.processedMessageIds messageId
      let content :=
        match decrypt md.encryptedContent with
        | some c => c
        | none => md.encryptedContent
      let newMessage : UIMessage :=
        { id := messageId, chat_id := st.chatId, sender_id := md.senderId,
          sender_username := md.senderUsername, content := content,
          timestamp := md.timestamp, isMine := false, pending := false }
      let msgs :=
        if st.messages.any (fun m => m.id == messageId) then st.messages
        else st.messages ++ [newMessage]
      let db1 := (DatabaseService.saveMessage db st.chatId md.senderId
        md.encryptedContent "text" md.timestamp now).1
      ({ st with processedMessageIds := processed, messages := msgs }, db1)

end BiometricAuthScreen

/-- Outbox entry pushed by `sendMessage` / `joinChat` while the socket
is not connected: `(type, data, timestamp = Date.now())`. -/
structure QueuedMessage where
  type : String
  data : MessageData
  timestamp : Nat
deriving DecidableEq, Repr

/-- Mutable fields of WebSocketServiceClass that the claims depend on
(the `socket` handle itself is represented by the event model below). -/
structure WSState where
  isConnected : Bool
  isEnabled : Bool
  messageQueue : List QueuedMessage
  reconnectAttempts : Nat
  maxReconnectAttempts : Nat
  processedMessages : List String
  joinedChats : List String
  userId : Option Nat
  username : Option String
  autoJoinCompleted : Bool
  autoJoinRetries : Nat
  maxAutoJoinRetries : Nat
deriving DecidableEq, Repr

/-- Constructor values of WebSocketServiceClass. -/
def WSState.init : WSState :=
  { isConnected := false, isEnabled := false, messageQueue := [],
    reconnectAttempts := 0, maxReconnectAttempts := 5,
    processedMessages := [], joinedChats := [],
    userId := none, username := none,
    autoJoinCompleted := false, autoJoinRetries := 0,
    maxAutoJoinRetries := 3 }

/-- Observable outbound effects of a send-path call, in program order. -/
inductive SendAction where
  /-- optimistic UI insertion with the locally generated id -/
  | addOptimistic (id : String)
  /-- completed local-store write returning this row id -/
  | persist (rowId : Nat)
  /-- `socket.emit('send_message', data)` carrying this message id -/
  | transmit (messageId : String)
  /-- push onto `messageQueue` carrying this message id -/
  | enqueue (messageId : String)
deriving DecidableEq, Repr

namespace WebSocketService

/-- WebSocketServiceClass.sendMessage: fills in a generated
`msg_(now)_(random)` id when `messageData.messageId` is falsy, then
either emits `send_message` (connected) or queues the operation with
`timestamp = Date.now()`.  Disabled service: no effect at all. -/
def sendMessage (ws : WSState) (md : MessageData) (genId : String)
    (now : Nat) : WSState × List SendAction :=
  if !ws.isEnabled then (ws, [])
  else
    let messageId := jsOr md.messageId genId
    let md1 := { md with messageId := some messageId }
    if ws.isConnected then (ws, [SendAction.transmit messageId])
    else
      ({ ws with messageQueue := ws.messageQueue ++
          [{ type := "send_message", data := md1, timestamp := now }] },
       [SendAction.enqueue messageId])

/-- Reconnect delay scheduled for the given (already incremented)
attempt counter value: `Math.min(1000 * Math.pow(2, attempts), 15000)`. -/
def reconnectDelay (attempts : Nat) : Nat :=
  min (1000 * 2 ^ attempts) 15000

/-- WebSocketServiceClass.handleReconnection: bail out when disabled or
past the retry cap, otherwise increment `reconnectAttempts` and schedule
a `socket.connect()` after `reconnectDelay` milliseconds (the scheduled
delay is the second component). -/
def handleReconnection (ws : WSState) : WSState × Option Nat :=
  if !ws.isEnabled then (ws, none)
  else if ws.reconnectAttempts < ws.maxReconnectAttempts then
    let attempts := ws.reconnectAttempts + 1
    ({ ws with reconnectAttempts := attempts },
     some (reconnectDelay attempts))
  else (ws, none)

/-- WebSocketServiceClass.disconnect: tear the socket down and clear
every piece of session state (queue, counters, both caches, identity). -/
def disconnect (ws : WSState) : WSState :=
  { ws with
    isConnected := false,
    isEnabled := false,
    messageQueue := [],
    reconnectAttempts := 0,
    processedMessages := [],
    joinedChats := [],
    autoJoinCompleted := false,
    autoJoinRetries := 0,
    userId := none,
    username := none }

/-- WebSocketServiceClass.handleIncomingMessage: compute the
de-duplication key, drop the event when already processed, otherwise
record the key (evicting the oldest 500 once the set exceeds 1000
entries) and hand the event to `onMessageReceived` (the `some` result). -/
def handleIncomingMessage (ws : WSState) (md : MessageData) :
    WSState × Option MessageData :=
  let messageId := dedupKey md
  if ws.processedMessages.contains messageId then (ws, none)
  else
    let processed := ws.processedMessages ++ [messageId]
    let processed := if processed.length > 1000 then processed.drop 500
      else processed
    ({ ws with processedMessages := processed }, some md)

/-- WebSocketServiceClass.processMessageQueue: walk the queued
operations in FIFO order; entries younger than 5 minutes (300000 ms) are
replayed, the rest are discarded.  Returns (replayed, discarded), both
in queue order. -/
def processMessageQueue : List QueuedMessage → Nat →
    List QueuedMessage × List QueuedMessage
  | [], _ => ([], [])
  | q :: rest, now =>
      let r := processMessageQueue rest now
      if now - q.timestamp < 300000 then (q :: r.1, r.2)
      else (r.1, q :: r.2)

end WebSocketService

/-- Socket events dispatched to the listeners installed by
`setupEventListeners`.  The explicit reason string socket.io uses for a
caller-initiated `socket.disconnect()` is `io client disconnect`. -/
inductive WSEvent where
  | connectEvt
  | authenticatedEvt (success : Bool)
  | disconnectEvt (reason : String)
  | joinedChatEvt (chatId : String)
  | joinChatErrorEvt (chatId : String)
  | newMessageEvt (md : MessageData)
  | connectErrorEvt
deriving DecidableEq, Repr

namespace WebSocketService

/-- Event dispatch of `setupEventListeners`.  The second component is
the reconnect delay scheduled by this event, if any.
On `connect`: mark connected, zero the attempt counter, flush the queue
(state-wise the queue is emptied; the replayed entries are
`processMessageQueue`'s first component) and emit `authenticate`.
On `authenticated`: success runs the auto-join pass (modelled
separately; its confirmations arrive as `joinedChatEvt`), failure calls
`disconnect()`.
On `disconnect`: mark disconnected, clear `joinedChats` and the
auto-join flags, and only for a reason other than `io client
disconnect` run `handleReconnection`.
On `joined_chat`: add the chat id to `joinedChats`.
On `new_message`: run `handleIncomingMessage` (the delivered message,
if any, goes to the registered `onMessageReceived` handler).
On `connect_error`: run `handleReconnection`. -/
def step (ws : WSState) (e : WSEvent) : WSState × Option Nat :=
  match e with
  | WSEvent.connectEvt =>
      ({ ws with isConnected := true, reconnectAttempts := 0,
                 messageQueue := [] }, none)
  | WSEvent.authenticatedEvt success =>
      if success then (ws, none) else (disconnect ws, none)
  | WSEvent.disconnectEvt reason =>
      let ws1 := { ws with isConnected := false, joinedChats := [],
                           autoJoinCompleted := false,
                           autoJoinRetries := 0 }
      if reason ≠ "io client disconnect" then handleReconnection ws1
      else (ws1, none)
  | WSEvent.joinedChatEvt chatId =>
      ({ ws with joinedChats := setAdd ws.joinedChats chatId }, none)
  | WSEvent.joinChatErrorEvt _ => (ws, none)
  | WSEvent.newMessageEvt md => ((handleIncomingMessage ws md).1, none)
  | WSEvent.connectErrorEvt => handleReconnection ws

/-- Run a sequence of socket events, collecting every reconnect delay
that gets scheduled along the way. -/
def run (ws : WSState) : List WSEvent → WSState × List Nat
  | [] => (ws, [])
  | e :: rest =>
      let (ws1, d) := step ws e
      let (ws2, ds) := run ws1 rest
      (ws2, d.toList ++ ds)

end WebSocketService

namespace ChatContext

/-- ChatContext.sendMessage: encrypt (a thrown encryption error aborts
the whole call), build the wire object without any `messageId` field,
hand it to WebSocketService.sendMessage, dispatch the optimistic UI
message `temp_(now)`, and only then save to the local store.  Returns
the new socket state, store and the outbound action trace in program
order. -/
def sendMessage (encrypt : String → Option String) (selfId : Nat)
    (selfName : String) (ws : WSState) (db : Database) (chatId : Nat)
    (messageText : String) (genId : String) (now : Nat) :
    WSState × Database × List SendAction :=
  match encrypt messageText with
  | none => (ws, db, [])
  | some envelope =>
      let md : MessageData :=
        { messageId := none, chatId := chatId, senderId := selfId,
          senderUsername := selfName, encryptedContent := envelope,
          messageType := "text", timestamp := now }
      let (ws1, wsActs) := WebSocketService.sendMessage ws md genId now
      let optimisticId := "temp_" ++ toString now
      let (db1, rowId) := DatabaseService.saveMessage db chatId selfId
        envelope "text" now now
      (ws1, db1,
       wsActs ++ [SendAction.addOptimistic optimisticId,
                  SendAction.persist rowId])

end ChatContext

namespace BiometricAuthScreen

/-- BiometricAuthScreen.sendMessage: generate the local message id
`(now)_(selfId)_(random)`, record it in `processedMessageIds`, insert
the optimistic UI message, encrypt (falling back to the plaintext on
encryption failure), save to the local store FIRST, then transmit via
WebSocketService.sendMessage with `messageId = savedRowId OR-ELSE
localId`, and finally clear the pending flag, rewriting the optimistic
entry's id to the transmitted id.  An empty input is rejected up
front. -/
def sendMessage (encrypt : String → Option String) (selfId : Nat)
    (selfName : String) (st : ScreenState) (ws : WSState) (db : Database)
    (messageText : String) (rand : String) (now : Nat) :
    ScreenState × WSState × Database × List SendAction :=
  if messageText = "" then (st, ws, db, [])
  else
    let timestamp := now
    let messageId :=
      toString timestamp ++ "_" ++ toString selfId ++ "_" ++ rand
    let optimistic : UIMessage :=
      { id := messageId, chat_id := st.chatId, sender_id := selfId,
        sender_username := selfName, content := messageText,
        timestamp := timestamp, isMine := true, pending := true }
    let st1 : ScreenState :=
      { st with
        processedMessageIds := setAdd st.processedMessageIds messageId,
        messages := st.messages ++ [optimistic] }
    let envelope :=
      match encrypt messageText with
      | some e => e
      | none => messageText
    let (db1, savedId) := DatabaseService.saveMessage db st.chatId selfId
      envelope "text" timestamp now
    let wsId := jsNumOr savedId messageId
    let md : MessageData :=
      { messageId := some wsId, chatId := st.chatId, senderId := selfId,
        senderUsername := selfName, encryptedContent := envelope,
        messageType := "text", timestamp := timestamp }
    let (ws1, wsActs) := WebSocketService.sendMessage ws md wsId now
    let st2 : ScreenState :=
      { st1 with
        messages := st1.messages.map (fun m =>
          if m.id == messageId then { m with pending := false, id := wsId }
          else m) }
    (st2, ws1, db1,
     [SendAction.addOptimistic messageId,
      SendAction.persist savedId] ++ wsActs)

end BiometricAuthScreen

/-- Observable effect of one iteration of the auto-join loop: either a
`join_chat` emission followed by a confirmation wait bounded by the
given timeout, or a skip of an already-joined chat. -/
inductive JoinEvent where
  | request (chatId : Nat) (timeoutMs : Nat)
  | skip (chatId : Nat)
deriving DecidableEq, Repr

namespace WebSocketService

/-- WebSocketServiceClass.joinChatAndWait: emit `join_chat` and wait up
to `timeoutMs` (default 5000 at every auto-join call site) for
`joined_chat` or `join_chat_error`.  The server's answer is an oracle
boolean; confirmation adds the chat to `joinedChats`, error and timeout
leave it absent. -/
def joinChatAndWait (ws : WSState) (chatId : Nat) (outcome : Bool) :
    WSState × Bool :=
  if outcome then
    ({ ws with joinedChats := setAdd ws.joinedChats (toString chatId) },
     true)
  else (ws, false)

/-- Loop body of WebSocketServiceClass.autoJoinUserChats: for each chat
of the user, skip it when already in `joinedChats` (counting it a
success), otherwise `joinChatAndWait(chat.id)` with the default 5000 ms
timeout.  Returns the final state, the success count, and the trace of
join requests and skips. -/
def autoJoinChatsLoop (outcome : Nat → Bool) :
    WSState → List Nat → WSState × Nat × List JoinEvent
  | ws, [] => (ws, 0, [])
  | ws, c :: rest =>
      if ws.joinedChats.contains (toString c) then
        let r := autoJoinChatsLoop outcome ws rest
        (r.1, r.2.1 + 1, JoinEvent.skip c :: r.2.2)
      else
        let w := joinChatAndWait ws c (outcome c)
        let r := autoJoinChatsLoop outcome w.1 rest
        (r.1, if w.2 then r.2.1 + 1 else r.2.1,
         JoinEvent.request c 5000 :: r.2.2)

/-- WebSocketServiceClass.autoJoinUserChats: refuse when not connected
or without a user id, succeed trivially on an empty chat list, and
otherwise run the join loop; the pass succeeds when every chat was
joined or skipped. -/
def autoJoinUserChats (ws : WSState) (userChats : List Nat)
    (outcome : Nat → Bool) : WSState × Bool × List JoinEvent :=
  if !ws.isConnected || ws.userId = none then (ws, false, [])
  else if userChats = [] then (ws, true, [])
  else
    let r := autoJoinChatsLoop outcome ws userChats
    (r.1, r.2.1 == userChats.length, r.2.2)

/-- Retry loop of WebSocketServiceClass.autoJoinUserChatsWithRetry with
explicit fuel (the remaining attempts out of `maxAutoJoinRetries`).
Each attempt reads the server oracle for that attempt from `outs`.  On
a successful pass, or once every attempt is exhausted,
`autoJoinCompleted` is set so the engine stops retrying.  Returns the
final state, the number of passes run, and the concatenated join
trace. -/
def autoJoinRetryLoop (userChats : List Nat) :
    List (Nat → Bool) → WSState → Nat → WSState × Nat × List JoinEvent
  | _, ws, 0 => ({ ws with autoJoinCompleted := true }, 0, [])
  | outs, ws, Nat.succ fuel =>
      let outcome := outs.headD (fun _ => false)
      let p := autoJoinUserChats ws userChats outcome
      if p.2.1 then
        ({ p.1 with autoJoinCompleted := true, autoJoinRetries := 0 },
         1, p.2.2)
      else
        let r := autoJoinRetryLoop userChats outs.tail p.1 fuel
        (r.1, r.2.1 + 1, p.2.2 ++ r.2.2)

/-- WebSocketServiceClass.autoJoinUserChatsWithRetry: run the pass as a
unit up to `maxAutoJoinRetries` (constructor value 3) times. -/
def autoJoinUserChatsWithRetry (ws : WSState) (userChats : List Nat)
    (outs : List (Nat → Bool)) : WSState × Nat × List JoinEvent :=
  autoJoinRetryLoop userChats outs ws ws.maxAutoJoinRetries

end WebSocketService

/-- Receive pipeline at the service boundary: the socket-level
de-duplication gate of WebSocketService.handleIncomingMessage followed,
for delivered events, by the local-store write the registered message
handler performs.  When the gate drops the event the store is
untouched. -/
def receiveAndPersist (ws : WSState) (db : Database) (md : MessageData)
    (now : Nat) : WSState × Database :=
  match WebSocketService.handleIncomingMessage ws md with
  | (ws1, none) => (ws1, db)
  | (ws1, some m) =>
      (ws1, (DatabaseService.saveMessage db m.chatId m.senderId
        m.encryptedContent "text" m.timestamp now).1)

/-- Predicate over a send-path action trace: every transmit or enqueue
action is preceded by a completed local-store write.  The accumulator
records whether a persist has happened yet. -/
def transmitsAfterPersist (seen : Bool) : List SendAction → Bool
  | [] => true
  | SendAction.persist _ :: rest => transmitsAfterPersist true rest
  | SendAction.transmit _ :: rest => seen && transmitsAfterPersist seen rest
  | SendAction.enqueue _ :: rest => seen && transmitsAfterPersist seen rest
  | SendAction.addOptimistic _ :: rest => transmitsAfterPersist seen rest

/-- Message ids carried by the transmit and enqueue actions of a trace. -/
def transmittedIds (tr : List SendAction) : List String :=
  tr.filterMap (fun a =>
    match a with
    | SendAction.transmit m => some m
    | SendAction.enqueue m => some m
    | _ => none)

/-- Row ids of the completed local-store writes of a trace. -/
def persistedIds (tr : List SendAction) : List Nat :=
  tr.filterMap (fun a =>
    match a with
    | SendAction.persist r => some r
    | _ => none)

/-- An event trace reaches the ready state exactly when it contains a
successful authentication. -/
def reachedReady (evs : List WSEvent) : Bool :=
  evs.any (fun e => e == WSEvent.authenticatedEvt true)

/-! Concrete fixtures used by counterexamples and witnesses. -/

/-- Crypto oracle that decrypts every envelope. -/
def decOracle : String → Option String := fun s => some ("dec_" ++ s)

/-- Crypto oracle that encrypts every plaintext. -/
def encOracle : String → Option String := fun s => some ("enc_" ++ s)

/-- Connected and authenticated service state for user 1. -/
def wsConnected : WSState :=
  { WSState.init with
    isConnected := true,
    isEnabled := true,
    userId := some 1,
    username := some "alice" }

/-- Inbound event echoing a message user 1 sent (senderId 1). -/
def mdSelf : MessageData :=
  { messageId := some "1", chatId := 7, senderId := 1,
    senderUsername := "alice", encryptedContent := "cipher",
    messageType := "text", timestamp := 1000 }

/-- Inbound event from another user (senderId 2). -/
def mdOther : MessageData :=
  { messageId := some "9", chatId := 7, senderId := 2,
    senderUsername := "bob", encryptedContent := "cipher2",
    messageType := "text", timestamp := 1500 }

/-- Store state after user 1's send path persisted the message the
server later echoes back as `mdSelf`. -/
def dbAfterSend : Database :=
  { messages := [{ id := 1, chat_id := 7, sender_id := 1,
                   encrypted_content := "cipher", message_type := "text",
                   timestamp := 1000, created_at := 1000 }],
    nextId := 2 }

/-- UI list after user 1's send path, holding the authoritative local
copy of the sent message. -/
def uiAfterSend : List UIMessage :=
  [{ id := "1", chat_id := 7, sender_id := 1, sender_username := "alice",
     content := "hello", timestamp := 1000, isMine := true,
     pending := false }]

/-- Chat screen state for chat 7 with nothing processed yet. -/
def screenSt0 : ScreenState :=
  { chatId := 7, processedMessageIds := [], messages := [] }

/-- Action trace of a concrete call of the ChatContext send path, on a
connected socket and a fresh store. -/
def ccSendTrace : List SendAction :=
  (ChatContext.sendMessage encOracle 1 "alice" wsConnected Database.init
    7 "hi" "msg_g1" 1000).2.2

/-- Store after saving one inbound message payload once. -/
def dupDb1 : Database :=
  (DatabaseService.saveMessage Database.init 7 2 "cipher2" "text" 1500
    5000).1

/-- Store after saving the identical message payload a second time. -/
def dupDb2 : Database :=
  (DatabaseService.saveMessage dupDb1 7 2 "cipher2" "text" 1500 6000).1

/-- Crypto oracle whose decryption always fails (throws). -/
def failOracle : String → Option String := fun _ => none

/-- Service state in the middle of a backoff sequence: enabled, three
reconnection attempts already made. -/
def wsAttempts3 : WSState :=
  { WSState.init with isEnabled := true, reconnectAttempts := 3 }

/-- Trace in which the transport opens but authentication is rejected:
the ready state is never reached. -/
def c6evs : List WSEvent :=
  [WSEvent.connectEvt, WSEvent.authenticatedEvt false]

/-- Outbox with one fresh entry (enqueued at 100000) and one stale
entry (enqueued at 0), flushed at time 400000. -/
def queueFixture : List QueuedMessage :=
  [{ type := "send_message", data := mdOther, timestamp := 100000 },
   { type := "send_message", data := mdSelf, timestamp := 0 }]

/-- Service state connected and authenticated with chat 5 already
confirmed-joined. -/
def wsJoined5 : WSState :=
  { wsConnected with joinedChats := ["5"] }

/-- First of two distinct messages sharing (timestamp, sender) and
lacking a messageId. -/
def mdDup1 : MessageData :=
  { messageId := none, chatId := 7, senderId := 2,
    senderUsername := "bob", encryptedContent := "cipherA",
    messageType := "text", timestamp := 4242 }

/-- Second, different message with the same fallback key. -/
def mdDup2 : MessageData :=
  { mdDup1 with encryptedContent := "cipherB" }

/-! Theorems. -/

/-- C1 counterexample: the ChatContext receive path does NOT discard an
inbound event whose senderId equals the current user's id.  Starting
from the state right after user 1 sent the message (one persisted row,
one UI entry), the server echo `mdSelf` makes
ChatContext.handleIncomingMessage append a second UI entry for the same
message and insert a second Message row into the local store. -/
theorem C1_counterexample :
    mdSelf.senderId = 1 ∧
    (ChatContext.handleIncomingMessage decOracle 1 2000 uiAfterSend
      dbAfterSend mdSelf).2.messages.length = 2 ∧
    (ChatContext.handleIncomingMessage decOracle 1 2000 uiAfterSend
      dbAfterSend mdSelf).1.length = 2 :=
  ⟨rfl, rfl, rfl⟩

/-- C1 (amended): the chat-screen receive path
(BiometricAuthScreen.handleNewMessage) discards every inbound event
whose senderId equals the current user's id: the screen state and the
local store are left exactly unchanged (no new Message row, no second
UI entry).  The ChatContext receive path performs no such check (see
the counterexample). -/
theorem C1_theorem (decrypt : String → Option String) (selfId now : Nat)
    (st : ScreenState) (db : Database) (md : MessageData)
    (h : md.senderId = selfId) :
    BiometricAuthScreen.handleNewMessage decrypt selfId now st db md =
      (st, db) := by
  subst h
  simp [BiometricAuthScreen.handleNewMessage]

/-- C1 witness: the chat-screen receive path at a concrete self-echo. -/
theorem C1_witness :
    mdSelf.senderId = 1 ∧
    BiometricAuthScreen.handleNewMessage decOracle 1 2000 screenSt0
      Database.init mdSelf = (screenSt0, Database.init) :=
  ⟨rfl, C1_theorem decOracle 1 2000 screenSt0 Database.init mdSelf rfl⟩

/-- C2 counterexample: the ChatContext send path transmits BEFORE the
local-store write completes, and the id it transmits is the
transport-generated `msg_` id, not the persisted row id.  The concrete
trace is transmit, optimistic insert, persist, in that order. -/
theorem C2_counterexample :
    ccSendTrace = [SendAction.transmit "msg_g1",
      SendAction.addOptimistic "temp_1000", SendAction.persist 1] ∧
    transmitsAfterPersist false ccSendTrace = false ∧
    transmittedIds ccSendTrace = ["msg_g1"] ∧
    persistedIds ccSendTrace = [1] :=
  ⟨rfl, rfl, rfl, rfl⟩

/-- C2 (amended): the chat-screen send path
(BiometricAuthScreen.sendMessage) persists before transmitting: in its
action trace every transmit or enqueue action is preceded by the
completed store write, and the single transmitted (or enqueued) id is
exactly the persisted row id.  The ChatContext send path violates both
parts (see the counterexample). -/
theorem C2_theorem (encrypt : String → Option String) (selfId : Nat)
    (selfName : String) (st : ScreenState) (ws : WSState) (db : Database)
    (messageText rand : String) (now : Nat)
    (htext : messageText ≠ "") (hen : ws.isEnabled = true)
    (hid : db.nextId ≠ 0) :
    transmitsAfterPersist false
      (BiometricAuthScreen.sendMessage encrypt selfId selfName st ws db
        messageText rand now).2.2.2 = true ∧
    transmittedIds
      (BiometricAuthScreen.sendMessage encrypt selfId selfName st ws db
        messageText rand now).2.2.2 = [toString db.nextId] ∧
    persistedIds
      (BiometricAuthScreen.sendMessage encrypt selfId selfName st ws db
        messageText rand now).2.2.2 = [db.nextId] := by
  unfold BiometricAuthScreen.sendMessage WebSocketService.sendMessage
    DatabaseService.saveMessage jsNumOr jsOr
  by_cases hc : ws.isConnected <;>
    simp [htext, hen, hid, hc, transmitsAfterPersist, transmittedIds,
      persistedIds]

/-- C2 witness: the chat-screen send path at concrete inputs. -/
theorem C2_witness :
    "hi" ≠ "" ∧ wsConnected.isEnabled = true ∧ Database.init.nextId ≠ 0 ∧
    transmittedIds
      (BiometricAuthScreen.sendMessage encOracle 1 "alice" screenSt0
        wsConnected Database.init "hi" "r1" 1000).2.2.2 =
      [toString Database.init.nextId] :=
  ⟨by decide, rfl, by decide,
   (C2_theorem encOracle 1 "alice" screenSt0 wsConnected Database.init
     "hi" "r1" 1000 (by decide) rfl (by decide)).2.1⟩

/-- C3 counterexample: the local store has no duplicate-insert
protection of its own.  Saving the identical message payload twice
yields two rows that agree on chat, sender, content and timestamp and
differ only in the autoincrement id, so store-level idempotence is
false: only the in-memory ProcessedMessageSet prevents the second
persist. -/
theorem C3_counterexample :
    dupDb2.messages =
      [{ id := 1, chat_id := 7, sender_id := 2,
         encrypted_content := "cipher2", message_type := "text",
         timestamp := 1500, created_at := 5000 },
       { id := 2, chat_id := 7, sender_id := 2,
         encrypted_content := "cipher2", message_type := "text",
         timestamp := 1500, created_at := 6000 }] :=
  rfl

/-- C3 (amended): delivering the same inbound event twice results in
exactly one persisted Message, but only because of the in-memory
ProcessedMessageSet of the socket service: the first delivery persists
one row and records the de-duplication key, the second delivery is
dropped at the gate and the service and store states are exactly
unchanged.  The store itself inserts unconditionally (see the
counterexample). -/
theorem C3_theorem (ws : WSState) (db : Database) (md : MessageData)
    (n1 n2 : Nat)
    (hfresh : ws.processedMessages.contains (dedupKey md) = false)
    (hlen : ws.processedMessages.length < 1000) :
    (receiveAndPersist ws db md n1).2.messages.length =
      db.messages.length + 1 ∧
    receiveAndPersist (receiveAndPersist ws db md n1).1
        (receiveAndPersist ws db md n1).2 md n2 =
      ((receiveAndPersist ws db md n1).1,
       (receiveAndPersist ws db md n1).2) := by
  have hfresh1 : dedupKey md ∉ ws.processedMessages := by
    simpa using hfresh
  have h1 : ¬ (1000 < ws.processedMessages.length + 1) := by omega
  unfold receiveAndPersist WebSocketService.handleIncomingMessage
  simp [hfresh1, h1, DatabaseService.saveMessage]

/-- C3 witness: a fresh service and store, one concrete inbound
message delivered twice. -/
theorem C3_witness :
    wsConnected.processedMessages.contains (dedupKey mdOther) = false ∧
    wsConnected.processedMessages.length < 1000 ∧
    (receiveAndPersist wsConnected Database.init mdOther 3000).2.messages.length =
      Database.init.messages.length + 1 :=
  ⟨rfl, by decide,
   (C3_theorem wsConnected Database.init mdOther 3000 4000 rfl
     (by decide)).1⟩

/-- C4 counterexample: in the ChatContext receive path a decryption
failure silently drops the message.  With a failing crypto gateway the
inbound event from user 2 produces no local-store write at all (and no
UI entry): the handler's catch block only logs. -/
theorem C4_counterexample :
    mdOther.senderId ≠ 1 ∧
    ChatContext.handleIncomingMessage failOracle 1 2000 [] Database.init
      mdOther = ([], Database.init) :=
  ⟨by decide, rfl⟩

/-- C4 (amended): in the chat-screen receive path
(BiometricAuthScreen.handleNewMessage) a decryption failure does not
drop the message: the event is still persisted to the local store (one
new row carrying the original envelope) and shown with the raw
encrypted content as the fallback content state.  The ChatContext
receive path instead drops such a message with no store write (see the
counterexample). -/
theorem C4_theorem (decrypt : String → Option String) (selfId now : Nat)
    (st : ScreenState) (db : Database) (md : MessageData)
    (hfail : decrypt md.encryptedContent = none)
    (hchat : md.chatId = st.chatId)
    (hfresh : st.processedMessageIds.contains (dedupKey md) = false)
    (hself : md.senderId ≠ selfId)
    (hnew : st.messages.any (fun m => m.id == dedupKey md) = false) :
    (BiometricAuthScreen.handleNewMessage decrypt selfId now st db
      md).2.messages =
      db.messages ++
        [{ id := db.nextId, chat_id := st.chatId,
           sender_id := md.senderId,
           encrypted_content := md.encryptedContent,
           message_type := "text", timestamp := md.timestamp,
           created_at := now }] ∧
    (BiometricAuthScreen.handleNewMessage decrypt selfId now st db
      md).1.messages =
      st.messages ++
        [{ id := dedupKey md, chat_id := st.chatId,
           sender_id := md.senderId,
           sender_username := md.senderUsername,
           content := md.encryptedContent, timestamp := md.timestamp,
           isMine := false, pending := false }] := by
  have hfresh1 : dedupKey md ∉ st.processedMessageIds := by
    simpa using hfresh
  unfold BiometricAuthScreen.handleNewMessage DatabaseService.saveMessage
  simp [hchat, hfresh1, hself, hfail, hnew]

/-- C4 witness: a concrete undecryptable inbound message on the chat
screen for chat 7. -/
theorem C4_witness :
    failOracle mdOther.encryptedContent = none ∧
    mdOther.chatId = screenSt0.chatId ∧
    mdOther.senderId ≠ 1 ∧
    (BiometricAuthScreen.handleNewMessage failOracle 1 2000 screenSt0
      Database.init mdOther).2.messages =
      Database.init.messages ++
        [{ id := Database.init.nextId, chat_id := screenSt0.chatId,
           sender_id := mdOther.senderId,
           encrypted_content := mdOther.encryptedContent,
           message_type := "text", timestamp := mdOther.timestamp,
           created_at := 2000 }] :=
  ⟨rfl, rfl, by decide,
   (C4_theorem failOracle 1 2000 screenSt0 Database.init mdOther rfl rfl
     rfl (by decide) rfl).1⟩

/-- Reconnection scheduling never touches the confirmed-joined set. -/
theorem handleReconnection_joinedChats (ws : WSState) :
    ((WebSocketService.handleReconnection ws).1).joinedChats =
      ws.joinedChats := by
  unfold WebSocketService.handleReconnection
  split
  · rfl
  · split <;> rfl

/-- The inbound-message gate never touches the confirmed-joined set. -/
theorem handleIncomingMessage_joinedChats (ws : WSState)
    (md : MessageData) :
    ((WebSocketService.handleIncomingMessage ws md).1).joinedChats =
      ws.joinedChats := by
  unfold WebSocketService.handleIncomingMessage
  by_cases h : dedupKey md ∈ ws.processedMessages <;> simp [h]

/-- Every socket event except a join confirmation preserves an empty
confirmed-joined set. -/
theorem step_joinedChats_empty (ws : WSState) (e : WSEvent)
    (h : ws.joinedChats = [])
    (hne : ∀ c, e ≠ WSEvent.joinedChatEvt c) :
    ((WebSocketService.step ws e).1).joinedChats = [] := by
  cases e with
  | connectEvt => simpa [WebSocketService.step] using h
  | authenticatedEvt s =>
      cases s <;>
        simp [WebSocketService.step, WebSocketService.disconnect, h]
  | disconnectEvt r =>
      unfold WebSocketService.step
      by_cases hr : r = "io client disconnect" <;>
        simp [hr, handleReconnection_joinedChats]
  | joinedChatEvt c => exact absurd rfl (hne c)
  | joinChatErrorEvt c => simpa [WebSocketService.step] using h
  | newMessageEvt md =>
      simpa [WebSocketService.step, handleIncomingMessage_joinedChats]
        using h
  | connectErrorEvt =>
      simpa [WebSocketService.step, handleReconnection_joinedChats]
        using h

/-- A run containing no join confirmation preserves an empty
confirmed-joined set. -/
theorem run_joinedChats_empty (evs : List WSEvent) :
    ∀ ws : WSState, ws.joinedChats = [] →
      (∀ c, WSEvent.joinedChatEvt c ∉ evs) →
      ((WebSocketService.run ws evs).1).joinedChats = [] := by
  induction evs with
  | nil =>
      intro ws h _
      simpa [WebSocketService.run] using h
  | cons e rest ih =>
      intro ws h hne
      have h1 : ((WebSocketService.step ws e).1).joinedChats = [] :=
        step_joinedChats_empty ws e h (fun c hc => by
          exact hne c (hc ▸ List.mem_cons_self e rest))
      have h2 := ih (WebSocketService.step ws e).1 h1
        (fun c hc => hne c (List.mem_cons_of_mem e hc))
      simpa [WebSocketService.run] using h2

/-- The disconnect handler clears the confirmed-joined set whatever the
reason was. -/
theorem step_disconnect_clears_joinedChats (ws : WSState) (r : String) :
    ((WebSocketService.step ws (WSEvent.disconnectEvt r)).1).joinedChats =
      [] := by
  unfold WebSocketService.step
  by_cases hr : r = "io client disconnect" <;>
    simp [hr, handleReconnection_joinedChats]

/-- C5: after a non-explicit transport drop, the confirmed-joined set
(joinedChats) is empty, and it stays empty through reconnection,
authentication and every other socket event until a join confirmation
from a Reconciler pass arrives: every entry into ready begins with a
cleared already-joined cache. -/
theorem C5_theorem (ws : WSState) (reason : String) (evs : List WSEvent)
    (hreason : reason ≠ "io client disconnect")
    (hjoin : ∀ c, WSEvent.joinedChatEvt c ∉ evs) :
    ((WebSocketService.run
        (WebSocketService.step ws (WSEvent.disconnectEvt reason)).1
        evs).1).joinedChats = [] :=
  run_joinedChats_empty evs _
    (step_disconnect_clears_joinedChats ws reason) hjoin

/-- C5 witness: a session with chat 7 joined, a transport drop and a
reconnect trace going all the way to the new ready state. -/
theorem C5_witness :
    "transport close" ≠ "io client disconnect" ∧
    ((WebSocketService.run
        (WebSocketService.step
          { wsConnected with joinedChats := ["7"] }
          (WSEvent.disconnectEvt "transport close")).1
        [WSEvent.connectEvt, WSEvent.authenticatedEvt true]).1).joinedChats =
      [] :=
  ⟨by decide,
   C5_theorem { wsConnected with joinedChats := ["7"] } "transport close"
     [WSEvent.connectEvt, WSEvent.authenticatedEvt true] (by decide)
     (fun c => by simp)⟩

/-- C6 counterexample: the attempt counter does NOT reset only on
reaching ready.  From three prior attempts, a trace whose transport
opens and whose authentication is then rejected never reaches ready,
yet the counter ends at zero: the `connect` handler zeroes it as soon
as the transport opens, before authentication completes (and
`disconnect()` zeroes it too). -/
theorem C6_counterexample :
    wsAttempts3.reconnectAttempts = 3 ∧
    reachedReady c6evs = false ∧
    ((WebSocketService.run wsAttempts3 c6evs).1).reconnectAttempts = 0 :=
  ⟨rfl, rfl, rfl⟩

/-- C6 (amended): the scheduled reconnect delay equals
`min(1000 * 2 ^ attempt, 15000)` for the pre-incremented attempt
counter, with the cap 15000 ms inside the spec's 10 to 15 second range;
consecutive delays are non-decreasing and never exceed the cap; and the
attempt counter is zeroed by the transport-level connect event (which
precedes authentication, hence ready) and by the explicit disconnect
teardown, not only on reaching ready. -/
theorem C6_theorem :
    (∀ ws : WSState, ws.isEnabled = true →
      ws.reconnectAttempts < ws.maxReconnectAttempts →
      (WebSocketService.handleReconnection ws).2 =
        some (WebSocketService.reconnectDelay (ws.reconnectAttempts + 1)) ∧
      ((WebSocketService.handleReconnection ws).1).reconnectAttempts =
        ws.reconnectAttempts + 1) ∧
    (∀ a b : Nat, a ≤ b →
      WebSocketService.reconnectDelay a ≤ WebSocketService.reconnectDelay b) ∧
    (∀ a : Nat, WebSocketService.reconnectDelay a ≤ 15000) ∧
    (∀ ws : WSState,
      ((WebSocketService.step ws WSEvent.connectEvt).1).reconnectAttempts = 0 ∧
      (WebSocketService.disconnect ws).reconnectAttempts = 0) := by
  refine ⟨?_, ?_, ?_, ?_⟩
  · intro ws h1 h2
    unfold WebSocketService.handleReconnection
    simp [h1, h2]
  · intro a b h
    unfold WebSocketService.reconnectDelay
    exact min_le_min
      (Nat.mul_le_mul_left 1000 (Nat.pow_le_pow_right (by norm_num) h))
      (le_refl 15000)
  · intro a
    exact min_le_right _ _
  · intro ws
    exact ⟨rfl, rfl⟩

/-- C6 witness: the concrete delay scheduled from one prior attempt is
`min(1000 * 2 ^ 2, 15000) = 4000` ms, and delays are monotone between
attempts 2 and 3. -/
theorem C6_witness :
    (WebSocketService.handleReconnection
      { WSState.init with isEnabled := true, reconnectAttempts := 1 }).2 =
        some (WebSocketService.reconnectDelay 2) ∧
    WebSocketService.reconnectDelay 2 ≤ WebSocketService.reconnectDelay 3 :=
  ⟨(C6_theorem.1
      { WSState.init with isEnabled := true, reconnectAttempts := 1 }
      rfl (by decide)).1,
   C6_theorem.2.1 2 3 (by decide)⟩

/-- Flushing the queue computes exactly the two in-order filters by the
5-minute freshness bound. -/
theorem processMessageQueue_filters (now : Nat) :
    ∀ queue : List QueuedMessage,
      (WebSocketService.processMessageQueue queue now).1 =
        queue.filter (fun q => now - q.timestamp < 300000) ∧
      (WebSocketService.processMessageQueue queue now).2 =
        queue.filter (fun q => ¬ (now - q.timestamp < 300000)) := by
  intro queue
  induction queue with
  | nil => exact ⟨rfl, rfl⟩
  | cons q rest ih =>
      by_cases h : now - q.timestamp < 300000
      · simp [WebSocketService.processMessageQueue, h, ih.1, ih.2]
      · have h1 : 300000 ≤ now - q.timestamp := Nat.not_lt.mp h
        simp [WebSocketService.processMessageQueue, h, ih.1, ih.2, h1]

/-- C7: on flush, the queue is drained in FIFO order (the replayed
entries form an order-preserving sublist of the queue, exactly the
in-order filter of the fresh entries); every entry whose age at flush
time exceeds the 5-minute TTL is discarded and is not among the
replayed entries, and every younger entry is replayed. -/
theorem C7_theorem (queue : List QueuedMessage) (now : Nat) :
    (WebSocketService.processMessageQueue queue now).1 =
      queue.filter (fun q => now - q.timestamp < 300000) ∧
    (WebSocketService.processMessageQueue queue now).2 =
      queue.filter (fun q => ¬ (now - q.timestamp < 300000)) ∧
    List.Sublist (WebSocketService.processMessageQueue queue now).1 queue ∧
    (∀ q ∈ queue, 300000 < now - q.timestamp →
      q ∈ (WebSocketService.processMessageQueue queue now).2 ∧
      q ∉ (WebSocketService.processMessageQueue queue now).1) ∧
    (∀ q ∈ queue, now - q.timestamp < 300000 →
      q ∈ (WebSocketService.processMessageQueue queue now).1) := by
  obtain ⟨h1, h2⟩ := processMessageQueue_filters now queue
  refine ⟨h1, h2, ?_, ?_, ?_⟩
  · rw [h1]
    exact List.filter_sublist queue
  · intro q hq hold
    have hnotlt : ¬ (now - q.timestamp < 300000) := by omega
    have hle : 300000 ≤ now - q.timestamp := by omega
    constructor
    · rw [h2]
      simp [List.mem_filter, hq, hnotlt, hle]
    · rw [h1]
      simp [List.mem_filter, hnotlt, hle]
  · intro q hq hyoung
    rw [h1]
    simp [List.mem_filter, hq, hyoung]

/-- C7 witness: at flush time 400000 the 0-aged-400000 entry is
discarded, the 300-second-old entry is replayed. -/
theorem C7_witness :
    ({ type := "send_message", data := mdSelf, timestamp := 0 } :
        QueuedMessage) ∈ queueFixture ∧
    300000 < 400000 - (0 : Nat) ∧
    ({ type := "send_message", data := mdSelf, timestamp := 0 } :
        QueuedMessage) ∈
      (WebSocketService.processMessageQueue queueFixture 400000).2 :=
  ⟨by decide, by decide,
   ((C7_theorem queueFixture 400000).2.2.2.1
     { type := "send_message", data := mdSelf, timestamp := 0 }
     (by decide) (by decide)).1⟩

/-- Adding to an insertion-ordered set keeps every existing member. -/
theorem setAdd_mem_mono (l : List String) (x y : String) (h : x ∈ l) :
    x ∈ setAdd l y := by
  unfold setAdd
  split
  · exact h
  · exact List.mem_append_left _ h

/-- A join wait only ever adds to the confirmed-joined set. -/
theorem joinChatAndWait_mem_mono (ws : WSState) (c : Nat) (o : Bool)
    (x : String) (h : x ∈ ws.joinedChats) :
    x ∈ ((WebSocketService.joinChatAndWait ws c o).1).joinedChats := by
  unfold WebSocketService.joinChatAndWait
  split
  · exact setAdd_mem_mono _ _ _ h
  · exact h

/-- The auto-join loop only ever adds to the confirmed-joined set. -/
theorem autoJoinChatsLoop_mem_mono (outcome : Nat → Bool)
    (chats : List Nat) :
    ∀ ws : WSState, ∀ x ∈ ws.joinedChats,
      x ∈ ((WebSocketService.autoJoinChatsLoop outcome ws chats).1).joinedChats := by
  induction chats with
  | nil => intro ws x h; exact h
  | cons c rest ih =>
      intro ws x h
      unfold WebSocketService.autoJoinChatsLoop
      by_cases hc : toString c ∈ ws.joinedChats
      · rw [if_pos (by simp [List.elem_eq_mem, hc])]
        exact ih ws x h
      · rw [if_neg (by simp [List.elem_eq_mem, hc])]
        exact ih _ x (joinChatAndWait_mem_mono ws c (outcome c) x h)

/-- Every join request emitted by the auto-join loop carries the
default 5000 ms confirmation timeout. -/
theorem autoJoinChatsLoop_timeout (outcome : Nat → Bool)
    (chats : List Nat) :
    ∀ ws : WSState, ∀ c t,
      JoinEvent.request c t ∈
        (WebSocketService.autoJoinChatsLoop outcome ws chats).2.2 →
      t = 5000 := by
  induction chats with
  | nil => intro ws c t h; simp [WebSocketService.autoJoinChatsLoop] at h
  | cons d rest ih =>
      intro ws c t h
      unfold WebSocketService.autoJoinChatsLoop at h
      by_cases hc : toString d ∈ ws.joinedChats
      · rw [if_pos (by simp [List.elem_eq_mem, hc])] at h
        rcases List.mem_cons.mp h with h | h
        · exact absurd h (by simp)
        · exact ih ws c t h
      · rw [if_neg (by simp [List.elem_eq_mem, hc])] at h
        rcases List.mem_cons.mp h with h | h
        · injection h with h1 h2
        · exact ih _ c t h

/-- The auto-join loop never emits a join request for a chat already in
the confirmed-joined set when the loop starts. -/
theorem autoJoinChatsLoop_skips_joined (outcome : Nat → Bool)
    (chats : List Nat) :
    ∀ ws : WSState, ∀ c : Nat, toString c ∈ ws.joinedChats →
      ∀ t, JoinEvent.request c t ∉
        (WebSocketService.autoJoinChatsLoop outcome ws chats).2.2 := by
  induction chats with
  | nil =>
      intro ws c hj t h
      simp [WebSocketService.autoJoinChatsLoop] at h
  | cons d rest ih =>
      intro ws c hj t h
      unfold WebSocketService.autoJoinChatsLoop at h
      by_cases hc : toString d ∈ ws.joinedChats
      · rw [if_pos (by simp [List.elem_eq_mem, hc])] at h
        rcases List.mem_cons.mp h with h | h
        · exact absurd h (by simp)
        · exact ih ws c hj t h
      · rw [if_neg (by simp [List.elem_eq_mem, hc])] at h
        rcases List.mem_cons.mp h with h | h
        · injection h with h1 h2
          exact hc (h1 ▸ hj)
        · exact ih _ c
            (joinChatAndWait_mem_mono ws d (outcome d) _ hj) t h

/-- Lift of the three loop lemmas to one pass of autoJoinUserChats. -/
theorem autoJoinUserChats_pass (ws : WSState) (userChats : List Nat)
    (outcome : Nat → Bool) :
    (∀ x ∈ ws.joinedChats,
      x ∈ ((WebSocketService.autoJoinUserChats ws userChats outcome).1).joinedChats) ∧
    (∀ c t, JoinEvent.request c t ∈
        (WebSocketService.autoJoinUserChats ws userChats outcome).2.2 →
      t = 5000) ∧
    (∀ c : Nat, toString c ∈ ws.joinedChats →
      ∀ t, JoinEvent.request c t ∉
        (WebSocketService.autoJoinUserChats ws userChats outcome).2.2) := by
  unfold WebSocketService.autoJoinUserChats
  split
  · exact ⟨fun x h => h, fun c t h => absurd h (by simp),
      fun c _ t h => absurd h (by simp)⟩
  · split
    · exact ⟨fun x h => h, fun c t h => absurd h (by simp),
        fun c _ t h => absurd h (by simp)⟩
    · exact ⟨fun x h => autoJoinChatsLoop_mem_mono outcome userChats ws x h,
        fun c t h => autoJoinChatsLoop_timeout outcome userChats ws c t h,
        fun c hj t h =>
          autoJoinChatsLoop_skips_joined outcome userChats ws c hj t h⟩

/-- Unfolding equation for one attempt of the retry loop. -/
theorem autoJoinRetryLoop_succ (userChats : List Nat)
    (outs : List (Nat → Bool)) (ws : WSState) (fuel : Nat) :
    WebSocketService.autoJoinRetryLoop userChats outs ws (fuel + 1) =
      if (WebSocketService.autoJoinUserChats ws userChats
            (outs.headD (fun _ => false))).2.1 then
        ({ (WebSocketService.autoJoinUserChats ws userChats
              (outs.headD (fun _ => false))).1 with
           autoJoinCompleted := true,
           autoJoinRetries := 0 },
         1,
         (WebSocketService.autoJoinUserChats ws userChats
           (outs.headD (fun _ => false))).2.2)
      else
        ((WebSocketService.autoJoinRetryLoop userChats outs.tail
            (WebSocketService.autoJoinUserChats ws userChats
              (outs.headD (fun _ => false))).1 fuel).1,
         (WebSocketService.autoJoinRetryLoop userChats outs.tail
            (WebSocketService.autoJoinUserChats ws userChats
              (outs.headD (fun _ => false))).1 fuel).2.1 + 1,
         (WebSocketService.autoJoinUserChats ws userChats
            (outs.headD (fun _ => false))).2.2 ++
           (WebSocketService.autoJoinRetryLoop userChats outs.tail
              (WebSocketService.autoJoinUserChats ws userChats
                (outs.headD (fun _ => false))).1 fuel).2.2) :=
  rfl

/-- Properties of the bounded retry loop, by induction on the fuel. -/
theorem autoJoinRetryLoop_spec (userChats : List Nat) :
    ∀ (fuel : Nat) (outs : List (Nat → Bool)) (ws : WSState),
      (WebSocketService.autoJoinRetryLoop userChats outs ws fuel).2.1 ≤ fuel ∧
      ((WebSocketService.autoJoinRetryLoop userChats outs ws fuel).1).autoJoinCompleted = true ∧
      (∀ c t, JoinEvent.request c t ∈
          (WebSocketService.autoJoinRetryLoop userChats outs ws fuel).2.2 →
        t = 5000) ∧
      (∀ c : Nat, toString c ∈ ws.joinedChats →
        ∀ t, JoinEvent.request c t ∉
          (WebSocketService.autoJoinRetryLoop userChats outs ws fuel).2.2) := by
  intro fuel
  induction fuel with
  | zero =>
      intro outs ws
      exact ⟨Nat.le_refl 0, rfl,
        fun c t h => absurd h (by simp [WebSocketService.autoJoinRetryLoop]),
        fun c _ t h =>
          absurd h (by simp [WebSocketService.autoJoinRetryLoop])⟩
  | succ fuel ih =>
      intro outs ws
      obtain ⟨hmono, htime, hskip⟩ :=
        autoJoinUserChats_pass ws userChats (outs.headD (fun _ => false))
      rw [autoJoinRetryLoop_succ]
      by_cases hs : (WebSocketService.autoJoinUserChats ws userChats
          (outs.headD (fun _ => false))).2.1 = true
      · rw [if_pos hs]
        refine ⟨Nat.succ_le_succ (Nat.zero_le fuel), rfl, ?_, ?_⟩
        · exact fun c t h => htime c t h
        · exact fun c hj t h => hskip c hj t h
      · rw [if_neg hs]
        obtain ⟨ihn, ihdone, ihtime, ihskip⟩ := ih outs.tail
          (WebSocketService.autoJoinUserChats ws userChats
            (outs.headD (fun _ => false))).1
        refine ⟨Nat.succ_le_succ ihn, ihdone, ?_, ?_⟩
        · intro c t h
          rcases List.mem_append.mp h with h | h
          · exact htime c t h
          · exact ihtime c t h
        · intro c hj t h
          rcases List.mem_append.mp h with h | h
          · exact hskip c hj t h
          · exact ihskip c (hmono _ hj) t h

/-- C8: in every auto-join pass a join request is emitted only for
chats not already in the confirmed-joined set (already-joined chats are
skipped, so a pass started with every chat confirmed emits no
requests), every request waits bounded by the default 5000 ms per-room
timeout, the pass is retried as a unit at most `maxAutoJoinRetries = 3`
times, and afterwards `autoJoinCompleted` is set (settled) so the
engine does not loop forever. -/
theorem C8_theorem (ws : WSState) (userChats : List Nat)
    (outs : List (Nat → Bool)) :
    (WebSocketService.autoJoinUserChatsWithRetry ws userChats outs).2.1 ≤
      ws.maxAutoJoinRetries ∧
    ((WebSocketService.autoJoinUserChatsWithRetry ws userChats outs).1).autoJoinCompleted =
      true ∧
    (∀ c t, JoinEvent.request c t ∈
        (WebSocketService.autoJoinUserChatsWithRetry ws userChats outs).2.2 →
      t = 5000) ∧
    (∀ c : Nat, toString c ∈ ws.joinedChats →
      ∀ t, JoinEvent.request c t ∉
        (WebSocketService.autoJoinUserChatsWithRetry ws userChats outs).2.2) :=
  autoJoinRetryLoop_spec userChats ws.maxAutoJoinRetries outs ws

/-- C8 witness: with chat 5 already joined and chats 5 and 6 as the
target set, the retry engine runs at most 3 passes, ends settled, and
never re-requests chat 5. -/
theorem C8_witness :
    toString (5 : Nat) ∈ wsJoined5.joinedChats ∧
    (WebSocketService.autoJoinUserChatsWithRetry wsJoined5 [5, 6]
      [fun _ => true]).2.1 ≤ wsJoined5.maxAutoJoinRetries ∧
    ((WebSocketService.autoJoinUserChatsWithRetry wsJoined5 [5, 6]
      [fun _ => true]).1).autoJoinCompleted = true ∧
    JoinEvent.request 5 5000 ∉
      (WebSocketService.autoJoinUserChatsWithRetry wsJoined5 [5, 6]
        [fun _ => true]).2.2 :=
  ⟨by decide,
   (C8_theorem wsJoined5 [5, 6] [fun _ => true]).1,
   (C8_theorem wsJoined5 [5, 6] [fun _ => true]).2.1,
   (C8_theorem wsJoined5 [5, 6] [fun _ => true]).2.2.2 5 (by decide) 5000⟩

/-- With the service disabled, reconnection scheduling is refused. -/
theorem handleReconnection_disabled (ws : WSState)
    (h : ws.isEnabled = false) :
    WebSocketService.handleReconnection ws = (ws, none) := by
  unfold WebSocketService.handleReconnection
  simp [h]

/-- The inbound-message gate never touches the enabled flag. -/
theorem handleIncomingMessage_isEnabled (ws : WSState)
    (md : MessageData) :
    ((WebSocketService.handleIncomingMessage ws md).1).isEnabled =
      ws.isEnabled := by
  unfold WebSocketService.handleIncomingMessage
  by_cases h : dedupKey md ∈ ws.processedMessages <;> simp [h]

/-- Once the service is disabled, no socket event re-enables it and no
socket event schedules a reconnect. -/
theorem step_disabled (ws : WSState) (e : WSEvent)
    (h : ws.isEnabled = false) :
    ((WebSocketService.step ws e).1).isEnabled = false ∧
    (WebSocketService.step ws e).2 = none := by
  cases e with
  | connectEvt => exact ⟨h, rfl⟩
  | authenticatedEvt s =>
      cases s
      · exact ⟨rfl, rfl⟩
      · exact ⟨h, rfl⟩
  | disconnectEvt r =>
      unfold WebSocketService.step
      by_cases hr : r = "io client disconnect"
      · simp [hr, h]
      · have hd := handleReconnection_disabled
          { ws with isConnected := false,
                    joinedChats := [],
                    autoJoinCompleted := false,
                    autoJoinRetries := 0 } h
        simp [hr, hd]
        exact h
  | joinedChatEvt c => exact ⟨h, rfl⟩
  | joinChatErrorEvt c => exact ⟨h, rfl⟩
  | newMessageEvt md =>
      exact ⟨(handleIncomingMessage_isEnabled ws md).trans h, rfl⟩
  | connectErrorEvt =>
      simpa [WebSocketService.step, handleReconnection_disabled ws h]
        using h

/-- A disabled service schedules no reconnect over any event run. -/
theorem run_disabled (evs : List WSEvent) :
    ∀ ws : WSState, ws.isEnabled = false →
      (WebSocketService.run ws evs).2 = [] := by
  induction evs with
  | nil => intro ws _; rfl
  | cons e rest ih =>
      intro ws h
      obtain ⟨h1, h2⟩ := step_disabled ws e h
      have h3 := ih (WebSocketService.step ws e).1 h1
      simp [WebSocketService.run, h2, h3]

/-- C9: an authentication rejection tears the session down to the
disconnected, disabled state and schedules no reconnection then or
during any later socket events; an explicit disconnect() likewise ends
disconnected and never triggers an auto-reconnect until the caller
explicitly reconnects. -/
theorem C9_theorem :
    (∀ ws : WSState,
      (WebSocketService.step ws (WSEvent.authenticatedEvt false)).2 =
        none ∧
      ((WebSocketService.step ws
        (WSEvent.authenticatedEvt false)).1).isConnected = false ∧
      ((WebSocketService.step ws
        (WSEvent.authenticatedEvt false)).1).isEnabled = false ∧
      ∀ evs : List WSEvent,
        (WebSocketService.run
          (WebSocketService.step ws
            (WSEvent.authenticatedEvt false)).1 evs).2 = []) ∧
    (∀ ws : WSState,
      (WebSocketService.disconnect ws).isConnected = false ∧
      ∀ evs : List WSEvent,
        (WebSocketService.run (WebSocketService.disconnect ws) evs).2 =
          []) :=
  ⟨fun ws => ⟨rfl, rfl, rfl, fun evs => run_disabled evs _ rfl⟩,
   fun ws => ⟨rfl, fun evs => run_disabled evs _ rfl⟩⟩

/-- C10: an inbound event without a messageId gets the fallback
de-duplication key `timestamp_senderId`, so two distinct messages from
the same sender with equal timestamps and no messageId collide: after
the first is delivered and persisted, the second is classified as a
duplicate by the gate and the delivery is a complete no-op, neither
persisting nor showing it even though its content differs. -/
theorem C10_theorem (ws : WSState) (db : Database) (m1 m2 : MessageData)
    (n1 n2 : Nat)
    (h1 : m1.messageId = none) (h2 : m2.messageId = none)
    (hts : m2.timestamp = m1.timestamp)
    (hsd : m2.senderId = m1.senderId)
    (hdiff : m1.encryptedContent ≠ m2.encryptedContent)
    (hfresh : ws.processedMessages.contains (dedupKey m1) = false)
    (hlen : ws.processedMessages.length < 1000) :
    dedupKey m1 = fallbackKey m1.timestamp m1.senderId ∧
    dedupKey m2 = dedupKey m1 ∧
    (WebSocketService.handleIncomingMessage
      (receiveAndPersist ws db m1 n1).1 m2).2 = none ∧
    receiveAndPersist (receiveAndPersist ws db m1 n1).1
        (receiveAndPersist ws db m1 n1).2 m2 n2 =
      ((receiveAndPersist ws db m1 n1).1,
       (receiveAndPersist ws db m1 n1).2) := by
  have hk1 : dedupKey m1 = fallbackKey m1.timestamp m1.senderId := by
    unfold dedupKey jsOr
    rw [h1]
  have hk2 : dedupKey m2 = dedupKey m1 := by
    unfold dedupKey jsOr
    rw [h1, h2, hts, hsd]
  have hfresh1 : dedupKey m1 ∉ ws.processedMessages := by
    simpa using hfresh
  have hlen1 : ¬ (1000 < ws.processedMessages.length + 1) := by omega
  refine ⟨hk1, hk2, ?_, ?_⟩
  · unfold receiveAndPersist WebSocketService.handleIncomingMessage
    simp [hfresh1, hlen1, hk2]
  · unfold receiveAndPersist WebSocketService.handleIncomingMessage
    simp [hfresh1, hlen1, hk2, DatabaseService.saveMessage]

/-- C10 witness: the concrete colliding pair; the gate classifies the
second message as a duplicate. -/
theorem C10_witness :
    mdDup1.encryptedContent ≠ mdDup2.encryptedContent ∧
    mdDup1.messageId = none ∧ mdDup2.messageId = none ∧
    (WebSocketService.handleIncomingMessage
      (receiveAndPersist wsConnected Database.init mdDup1 10).1
      mdDup2).2 = none :=
  ⟨by decide, rfl, rfl,
   (C10_theorem wsConnected Database.init mdDup1 mdDup2 10 20 rfl rfl rfl
     rfl (by decide) rfl (by decide)).2.2.1⟩

end E2EE
